import Mathlib

/-!
Verification of the MyMoneyMap county analytics layer.

The definitions below are a shallow embedding of the computations in
`src/mymoneymap.py`: the state-extraction regex applied to the `county`
column, the category normalizer `shorten_category_name`, the income-band
filter, the complaint drill-down (pandas `idxmax` plus the advisory-tip
if/elif chain), the peer finder `peers_df`, the distress score and the
state-restricted ranking (pandas `rank`, average method), and the
savings-goal progress computation.  Data frames are embedded as lists of
records, float arithmetic as exact rational arithmetic, and a missing
value (NaN) in the derived `state` column as `Option.none` with the
pandas comparison semantics (`NaN == x` is false, `NaN != x` is true).
-/

namespace MyMoneyMap

/-- Whitespace characters matched by the `\s` class of the state-extraction
regex `,\s*([A-Za-z\s]+)$` (ASCII whitespace; the data is ASCII). -/
def isWsChar (c : Char) : Bool :=
  c = ' ' || c = '\t' || c = '\n' || c = '\r' || c = '\x0b' || c = '\x0c'

/-- Characters matched by the `[A-Za-z]` ranges of the state-extraction regex. -/
def isAsciiLetter (c : Char) : Bool :=
  ('A' ≤ c && c ≤ 'Z') || ('a' ≤ c && c ≤ 'z')

/-- The characters strictly after the last comma of the string, when a comma
occurs at all. -/
def afterLastComma : List Char → Option (List Char)
  | [] => none
  | c :: t =>
    match afterLastComma t with
    | some r => some r
    | none => if c = ',' then some t else none

/-- Embedding of `df["county"].str.extract(r",\s*([A-Za-z\s]+)$")`
(src/mymoneymap.py line 82).  `re.search` can only match at the last comma
(the character class admits no comma), `\s*` greedily strips the leading
whitespace run while leaving the capture group nonempty, and the group runs
to the end of the string, so trailing whitespace is kept.  A string with no
comma, or whose suffix after the last comma is empty or contains a character
that is neither an ASCII letter nor whitespace, yields no match (NaN). -/
def extractState (s : List Char) : Option (List Char) :=
  match afterLastComma s with
  | none => none
  | some suf =>
    if suf.all (fun c => isAsciiLetter c || isWsChar c) && !suf.isEmpty then
      let t := suf.dropWhile isWsChar
      if t.isEmpty then some (suf.drop (suf.length - 1)) else some t
    else none

/-- Modelled from the spec (section 4.2 / section 8, the sentence under
check in C5): the state as "exactly the substring after the last comma,
trimmed", present when it consists of letters and spaces only, matched as a
suffix; absent otherwise.  Kept separate from `extractState`, which embeds
the code, so the two can be compared. -/
def specTrimmedState (s : List Char) : Option (List Char) :=
  match afterLastComma s with
  | none => none
  | some suf =>
    let t := ((suf.dropWhile isWsChar).reverse.dropWhile isWsChar).reverse
    if !t.isEmpty && t.all (fun c => isAsciiLetter c || isWsChar c) then some t
    else none

/-- A row of the `financial_data` table (`df`).  The derived `state` column
is the function `stateOf` below, not a stored field. -/
structure CountyRecord where
  county : String
  median_income : ℚ
  total_complaints : ℚ
deriving DecidableEq

/-- The derived `state` column: `df["state"] = df["county"].str.extract(...)`. -/
def stateOf (r : CountyRecord) : Option String :=
  (extractState r.county.data).map fun l => String.mk l

/-- pandas `==` against the state column: a missing value (NaN) compares
unequal to everything, including another missing value. -/
def stateEqB : Option String → Option String → Bool
  | some a, some b => a == b
  | _, _ => false

/-- pandas `!=` against the state column: `NaN != x` is true for every `x`,
including another missing value. -/
def stateNeB : Option String → Option String → Bool
  | some a, some b => !(a == b)
  | _, _ => true

/-- Embedding of `shorten_category_name` (src/mymoneymap.py lines 63-73):
`mapping.get(name, name)` over the fixed 7-entry table. -/
def shorten_category_name (name : String) : String :=
  if name = "Bank account or service" then "Bank Account"
  else if name = "Checking or savings account" then "Checking/Savings"
  else if name = "Credit card" then "Credit Card"
  else if name = "Credit card or prepaid card" then "Credit/Prepaid"
  else if name = "Credit reporting" then "Credit Report"
  else if name = "Debt collection" then "Debt Collection"
  else if name = "Mortgage" then "Mortgage"
  else name

/-- Embedding of the savings-goal progress (src/mymoneymap.py line 214):
`progress = min(saved / goal, 1.0) if goal > 0 else 0.0`. -/
def progress (goal saved : ℚ) : ℚ :=
  if 0 < goal then min (saved / goal) 1 else 0

/-- Embedding of the income-band filter (src/mymoneymap.py line 88):
`filtered_df = df[(df["median_income"] >= lo) & (df["median_income"] <= hi)]`. -/
def filtered_df (df : List CountyRecord) (lo hi : ℚ) : List CountyRecord :=
  df.filter fun r => decide (lo ≤ r.median_income) && decide (r.median_income ≤ hi)

/-- pandas `Series.max` over a nonempty column; `0` for the empty frame
(that case is unreachable: the analytics run under `if not df.empty`). -/
def colMax : List ℚ → ℚ
  | [] => 0
  | x :: xs => xs.foldl max x

/-- The `median_income` column of `df`. -/
def incomeCol (df : List CountyRecord) : List ℚ :=
  df.map fun r => r.median_income

/-- The `total_complaints` column of `df`. -/
def complaintsCol (df : List CountyRecord) : List ℚ :=
  df.map fun r => r.total_complaints

/-- Embedding of the distress-score assignment (src/mymoneymap.py lines
196-197): `df["total_complaints"] / df["total_complaints"].max() * 0.5 +
(1 - df["median_income"] / df["median_income"].max()) * 0.5`. -/
def distress_score (df : List CountyRecord) (r : CountyRecord) : ℚ :=
  r.total_complaints / colMax (complaintsCol df) * (1 / 2)
    + (1 - r.median_income / colMax (incomeCol df)) * (1 / 2)

/-- `df[df["county"] == county]` followed by `.iloc[0]`: the first row whose
`county` equals the selected key, if any. -/
def findCounty (df : List CountyRecord) (name : String) : Option CountyRecord :=
  df.find? fun r => r.county == name

/-- Embedding of `peers_df` (src/mymoneymap.py lines 172-180):
rows of `df` whose `median_income` lies in `[0.95*I, 1.05*I]` for the
selected county's income `I` and whose `state` differs (pandas `!=`) from
the selected county's state, sorted ascending by `median_income`. -/
def peers_df (df : List CountyRecord) (name : String) : List CountyRecord :=
  match findCounty df name with
  | none => []
  | some sel =>
    (df.filter fun r =>
        decide (sel.median_income * (95 / 100) ≤ r.median_income)
          && decide (r.median_income ≤ sel.median_income * (105 / 100))
          && stateNeB (stateOf r) (stateOf sel)).mergeSort
      fun a b => decide (a.median_income ≤ b.median_income)

/-- The displayed peer table: `peers_df[...].head(5)` (src/mymoneymap.py
line 183). -/
def peersShown (df : List CountyRecord) (name : String) : List CountyRecord :=
  (peers_df df name).take 5

/-- Embedding of `state_df` (src/mymoneymap.py line 199):
`df[df["state"] == state].sort_values("distress_score", ascending=False)`,
with the distress score computed over the full frame `df`. -/
def state_df (df : List CountyRecord) (selState : Option String) : List CountyRecord :=
  (df.filter fun r => stateEqB (stateOf r) selState).mergeSort
    fun a b => decide (distress_score df b ≤ distress_score df a)

/-- pandas `Series.rank(ascending=False)` with the default `method="average"`:
the rank of the value `x` within the column `l` is the number of strictly
greater entries plus the average of the positions the entries equal to `x`
occupy, i.e. `#greater + (#equal + 1) / 2`. -/
def rankOf (l : List ℚ) (x : ℚ) : ℚ :=
  ((l.countP fun y => decide (x < y) : ℕ) : ℚ)
    + (((l.countP fun y => decide (y = x) : ℕ) : ℚ) + 1) / 2

/-- The `distress_score` column of `state_df`. -/
def stateScores (df : List CountyRecord) (selState : Option String) : List ℚ :=
  (state_df df selState).map (distress_score df)

/-- The `rank` column of `state_df` (src/mymoneymap.py line 200). -/
def stateRanks (df : List CountyRecord) (selState : Option String) : List ℚ :=
  (stateScores df selState).map (rankOf (stateScores df selState))

/-- The displayed ranking table: `state_df[...].head(10)` (src/mymoneymap.py
line 205). -/
def rankingShown (df : List CountyRecord) (selState : Option String) : List CountyRecord :=
  (state_df df selState).take 10

/-- The reported score and rank of the selected county (src/mymoneymap.py
lines 201-202): the `distress_score` and `rank` entries of the first row of
`state_df` whose `county` equals the selected key. -/
def selectedScoreRank (df : List CountyRecord) (name : String) : Option (ℚ × ℚ) :=
  match findCounty df name with
  | none => none
  | some sel =>
    ((state_df df (stateOf sel)).find? fun r => r.county == name).map fun r =>
      (distress_score df r, rankOf (stateScores df (stateOf sel)) (distress_score df r))

/-- A row of the `complaint_categories` table (`cfpb_df`), after the
`Product` column has been passed through `shorten_category_name`. -/
structure ComplaintRecord where
  county : String
  product : String
  complaint_count : ℤ
deriving DecidableEq

/-- `county_complaints = cfpb_df[cfpb_df["county"] == county]`
(src/mymoneymap.py line 105). -/
def county_complaints (cfpb : List ComplaintRecord) (name : String) : List ComplaintRecord :=
  cfpb.filter fun r => r.county == name

/-- pandas `idxmax` followed by `.loc` (src/mymoneymap.py line 141): the
first row attaining the maximal `complaint_count`. -/
def idxmaxRow : List ComplaintRecord → Option ComplaintRecord
  | [] => none
  | r :: t =>
    match idxmaxRow t with
    | none => some r
    | some b => if b.complaint_count ≤ r.complaint_count then some r else some b

/-- `top_category = county_complaints.loc[county_complaints["complaint_count"].idxmax(), "Product"]`. -/
def top_category (cfpb : List ComplaintRecord) (name : String) : Option String :=
  (idxmaxRow (county_complaints cfpb name)).map fun r => r.product

/-- Whether `p` occurs at the head of `s`. -/
def beginsWith : List Char → List Char → Bool
  | _, [] => true
  | [], _ :: _ => false
  | c :: s, d :: p => c = d && beginsWith s p

/-- Whether `p` occurs as a contiguous run inside `s`: the Python `in`
operator on strings. -/
def hasSubstr : List Char → List Char → Bool
  | [], p => p.isEmpty
  | c :: t, p => beginsWith (c :: t) p || hasSubstr t p

/-- Python `pat in s` for strings. -/
def strContains (s pat : String) : Bool :=
  hasSubstr s.data pat.data

/-- Python `str.lower()` (the data is ASCII). -/
def lowerAscii (s : String) : String :=
  String.mk (s.data.map Char.toLower)

/-- Python `str.strip()` on ASCII data: whitespace removed from both ends.
Used to state what the spec's word "trimmed" means. -/
def trimAscii (s : String) : String :=
  String.mk (((s.data.dropWhile isWsChar).reverse.dropWhile isWsChar).reverse)

/-- The debt-collection advisory string (src/mymoneymap.py line 145). -/
def debtTip : String :=
  "- **Tip**: Contact a local credit counselor to negotiate debt repayment plans."

/-- The mortgage advisory string (line 147). -/
def mortgageTip : String :=
  "- **Tip**: Explore mortgage relief programs or refinancing options."

/-- The credit-card advisory string (line 149). -/
def creditCardTip : String :=
  "- **Tip**: Review credit card statements for errors and consider lower-interest options."

/-- The checking advisory string (line 151). -/
def checkingTip : String :=
  "- **Tip**: Compare bank fees and switch to a low-cost or no-fee account."

/-- The credit-report advisory string (line 153). -/
def creditReportTip : String :=
  "- **Tip**: Check your credit report for errors at AnnualCreditReport.com."

/-- The fallback advisory string (line 155), naming the category. -/
def genericTip (cat : String) : String :=
  "- **Tip**: Seek financial education resources for managing "
    ++ lowerAscii cat ++ " issues."

/-- Embedding of the advisory-tip if/elif chain (src/mymoneymap.py lines
144-155): substring tests against the lower-cased top category, in source
order, first match wins. -/
def advisoryTip (cat : String) : String :=
  let t := lowerAscii cat
  if strContains t "debt collection" then debtTip
  else if strContains t "mortgage" then mortgageTip
  else if strContains t "credit card" then creditCardTip
  else if strContains t "checking" then checkingTip
  else if strContains t "credit report" then creditReportTip
  else genericTip cat

/-! ### Helper lemmas for the state extraction -/

lemma afterLastComma_of_not_mem {s : List Char} (h : ',' ∉ s) :
    afterLastComma s = none := by
  induction s with
  | nil => rfl
  | cons c t ih =>
    have hc : ¬(c = ',') := fun hc => h (hc ▸ List.mem_cons_self c t)
    have ht : ',' ∉ t := fun ht => h (List.mem_cons_of_mem _ ht)
    simp [afterLastComma, ih ht, hc]

lemma afterLastComma_append {a b : List Char} (h : ',' ∉ b) :
    afterLastComma (a ++ ',' :: b) = some b := by
  induction a with
  | nil => simp [afterLastComma, afterLastComma_of_not_mem h]
  | cons c t ih => simp [afterLastComma, ih]

/-- C5 (amended): the derived state is the substring after the last comma
with its leading whitespace stripped and its trailing whitespace kept,
present when that substring consists only of letters and whitespace and
contains a non-whitespace character; a string with no comma, or with some
other character after its last comma, yields an absent state and no error. -/
theorem extractState_spec :
    (∀ a b : List Char, ',' ∉ b →
        b.all (fun c => isAsciiLetter c || isWsChar c) = true →
        b.dropWhile isWsChar ≠ [] →
        extractState (a ++ ',' :: b) = some (b.dropWhile isWsChar))
      ∧ (∀ s : List Char, ',' ∉ s → extractState s = none)
      ∧ (∀ a b : List Char, ',' ∉ b →
          b.all (fun c => isAsciiLetter c || isWsChar c) = false →
          extractState (a ++ ',' :: b) = none) := by
  refine ⟨?_, ?_, ?_⟩
  · intro a b hb hall hne
    have hbne : b ≠ [] := by
      intro h0
      subst h0
      simp at hne
    unfold extractState
    rw [afterLastComma_append hb]
    simp [hall, hbne, hne]
  · intro s h
    simp [extractState, afterLastComma_of_not_mem h]
  · intro a b hb hall
    unfold extractState
    rw [afterLastComma_append hb]
    simp [hall]

/-- C5 witness: the amended statement instantiated at
"Autauga County, Alabama", whose derived state is "Alabama". -/
theorem extractState_spec_witness :
    extractState ("Autauga County".data ++ ',' :: " Alabama".data)
      = some (" Alabama".data.dropWhile isWsChar) :=
  extractState_spec.1 "Autauga County".data " Alabama".data
    (by decide) (by decide) (by decide)

/-- C5 counterexample: on "Autauga County, Alabama " (trailing blank) the
capture group of the regex keeps the trailing whitespace, so the derived
state is "Alabama " and not the trimmed substring "Alabama" that the claim
describes (`specTrimmedState` is the claim's wording as a definition). -/
theorem extractState_not_trimmed :
    extractState "Autauga County, Alabama ".data = some "Alabama ".data
      ∧ specTrimmedState "Autauga County, Alabama ".data = some "Alabama".data
      ∧ extractState "Autauga County, Alabama ".data
          ≠ specTrimmedState "Autauga County, Alabama ".data := by
  refine ⟨by decide, by decide, by decide⟩

/-! ### The category normalizer -/

/-- C6 (amended): the normalizer returns the mapped short label on each of
the 7 table entries and returns every other input unchanged (it does not
trim); it is a pure total function with no error case. -/
theorem shorten_category_name_spec (s : String)
    (h1 : s ≠ "Bank account or service") (h2 : s ≠ "Checking or savings account")
    (h3 : s ≠ "Credit card") (h4 : s ≠ "Credit card or prepaid card")
    (h5 : s ≠ "Credit reporting") (h6 : s ≠ "Debt collection")
    (h7 : s ≠ "Mortgage") :
    shorten_category_name s = s
      ∧ shorten_category_name "Bank account or service" = "Bank Account"
      ∧ shorten_category_name "Checking or savings account" = "Checking/Savings"
      ∧ shorten_category_name "Credit card" = "Credit Card"
      ∧ shorten_category_name "Credit card or prepaid card" = "Credit/Prepaid"
      ∧ shorten_category_name "Credit reporting" = "Credit Report"
      ∧ shorten_category_name "Debt collection" = "Debt Collection"
      ∧ shorten_category_name "Mortgage" = "Mortgage" := by
  refine ⟨?_, by decide, by decide, by decide, by decide, by decide, by decide,
    by decide⟩
  unfold shorten_category_name
  rw [if_neg h1, if_neg h2, if_neg h3, if_neg h4, if_neg h5, if_neg h6, if_neg h7]

/-- C6 witness: the amended statement instantiated at the unmapped input
"Payday loan", which passes through unchanged. -/
theorem shorten_category_name_spec_witness :
    (("Payday loan" : String) ≠ "Bank account or service"
        ∧ ("Payday loan" : String) ≠ "Checking or savings account"
        ∧ ("Payday loan" : String) ≠ "Credit card"
        ∧ ("Payday loan" : String) ≠ "Credit card or prepaid card"
        ∧ ("Payday loan" : String) ≠ "Credit reporting"
        ∧ ("Payday loan" : String) ≠ "Debt collection"
        ∧ ("Payday loan" : String) ≠ "Mortgage")
      ∧ shorten_category_name "Payday loan" = "Payday loan" :=
  ⟨⟨by decide, by decide, by decide, by decide, by decide, by decide, by decide⟩,
    (shorten_category_name_spec "Payday loan" (by decide) (by decide) (by decide)
      (by decide) (by decide) (by decide) (by decide)).1⟩

/-- C6 counterexample: on the unmapped input " Mortgage " (surrounding
blanks) the normalizer returns the input unchanged, not the trimmed input
"Mortgage" that the claim describes. -/
theorem shorten_category_name_no_trim :
    shorten_category_name " Mortgage " = " Mortgage "
      ∧ trimAscii " Mortgage " = "Mortgage"
      ∧ shorten_category_name " Mortgage " ≠ trimAscii " Mortgage " := by
  refine ⟨by decide, by decide, by decide⟩

/-- C9: the category normalizer is idempotent: applying it twice gives the
same result as applying it once, because each of its 7 mapped outputs is
itself a fixed point and every other input passes through unchanged. -/
theorem shorten_category_name_idem (s : String) :
    shorten_category_name (shorten_category_name s) = shorten_category_name s := by
  by_cases h1 : s = "Bank account or service"
  · subst h1; decide
  by_cases h2 : s = "Checking or savings account"
  · subst h2; decide
  by_cases h3 : s = "Credit card"
  · subst h3; decide
  by_cases h4 : s = "Credit card or prepaid card"
  · subst h4; decide
  by_cases h5 : s = "Credit reporting"
  · subst h5; decide
  by_cases h6 : s = "Debt collection"
  · subst h6; decide
  by_cases h7 : s = "Mortgage"
  · subst h7; decide
  have hs : shorten_category_name s = s := by
    unfold shorten_category_name
    rw [if_neg h1, if_neg h2, if_neg h3, if_neg h4, if_neg h5, if_neg h6, if_neg h7]
  rw [hs]
  exact hs

/-! ### Savings-goal progress -/

/-- C7 (amended): the progress computation is total and never divides by
zero: a zero goal gives 0, a positive goal gives min(saved/goal, 1) - in
particular saved/goal whenever saved ≤ goal - and the result lies in [0,1]. -/
theorem progress_spec (goal saved : ℚ) (hg : 0 ≤ goal) (hs : 0 ≤ saved) :
    (goal = 0 → progress goal saved = 0)
      ∧ (0 < goal → progress goal saved = min (saved / goal) 1)
      ∧ (0 < goal → saved ≤ goal → progress goal saved = saved / goal)
      ∧ 0 ≤ progress goal saved ∧ progress goal saved ≤ 1 := by
  refine ⟨?_, ?_, ?_, ?_, ?_⟩
  · intro h0
    simp [progress, h0]
  · intro hpos
    simp [progress, hpos]
  · intro hpos hle
    have h1 : saved / goal ≤ 1 := by
      rw [div_le_one hpos]
      exact hle
    simp [progress, hpos, min_eq_left h1]
  · unfold progress
    split_ifs with hpos
    · exact le_min (div_nonneg hs hpos.le) zero_le_one
    · exact le_refl 0
  · unfold progress
    split_ifs with hpos
    · exact min_le_right _ _
    · exact zero_le_one

/-- C7 witness: the amended statement at goal=5000, saved=1000, together
with the evaluated outcome progress = 1/5, i.e. 20%. -/
theorem progress_spec_witness :
    ((0 : ℚ) ≤ 5000 ∧ (0 : ℚ) ≤ 1000
        ∧ (((5000 : ℚ) = 0 → progress 5000 1000 = 0)
          ∧ ((0 : ℚ) < 5000 → progress 5000 1000 = min (1000 / 5000) 1)
          ∧ ((0 : ℚ) < 5000 → (1000 : ℚ) ≤ 5000 →
              progress 5000 1000 = 1000 / 5000)
          ∧ 0 ≤ progress 5000 1000 ∧ progress 5000 1000 ≤ 1))
      ∧ progress 5000 1000 = 1 / 5 :=
  ⟨⟨by norm_num, by norm_num,
      progress_spec 5000 1000 (by norm_num) (by norm_num)⟩,
    by norm_num [progress]⟩

/-- C7 counterexample: with goal=1000 and saved=2000 the code computes
min(saved/goal, 1) = 1, not saved/goal = 2, so "when goal > 0 the progress
is saved/goal" fails as stated (the code caps the progress at 100%). -/
theorem progress_not_ratio :
    progress 1000 2000 = 1 ∧ (2000 : ℚ) / 1000 = 2
      ∧ progress 1000 2000 ≠ 2000 / 1000 := by
  refine ⟨by norm_num [progress], by norm_num, by norm_num [progress]⟩

/-! ### Income-band filter -/

/-- C8: the income-band filter returns exactly the records whose
median_income lies within the inclusive [lo, hi] bound, and preserves the
original record order: the result is a sublist of the input frame. -/
theorem filtered_df_spec (df : List CountyRecord) (lo hi : ℚ) :
    List.Sublist (filtered_df df lo hi) df
      ∧ (∀ r ∈ filtered_df df lo hi,
          r ∈ df ∧ lo ≤ r.median_income ∧ r.median_income ≤ hi)
      ∧ (∀ r ∈ df, lo ≤ r.median_income → r.median_income ≤ hi →
          r ∈ filtered_df df lo hi) := by
  refine ⟨List.filter_sublist _, ?_, ?_⟩
  · intro r hr
    simp only [filtered_df, List.mem_filter, Bool.and_eq_true, decide_eq_true_eq]
      at hr
    exact ⟨hr.1, hr.2.1, hr.2.2⟩
  · intro r hr h1 h2
    simp only [filtered_df, List.mem_filter, Bool.and_eq_true, decide_eq_true_eq]
    exact ⟨hr, h1, h2⟩

/-- C8 witness: the filter at a concrete two-row frame and the bound
[0, 20], which keeps exactly the first row. -/
theorem filtered_df_spec_witness :
    (List.Sublist
        (filtered_df [⟨"Autauga County, Alabama", 10, 5⟩,
          ⟨"Bibb County, Alabama", 30, 2⟩] 0 20)
        [⟨"Autauga County, Alabama", 10, 5⟩, ⟨"Bibb County, Alabama", 30, 2⟩]
      ∧ (∀ r ∈ filtered_df [⟨"Autauga County, Alabama", 10, 5⟩,
            ⟨"Bibb County, Alabama", 30, 2⟩] 0 20,
          r ∈ [(⟨"Autauga County, Alabama", 10, 5⟩ : CountyRecord),
              ⟨"Bibb County, Alabama", 30, 2⟩]
            ∧ 0 ≤ r.median_income ∧ r.median_income ≤ 20)
      ∧ (∀ r ∈ [(⟨"Autauga County, Alabama", 10, 5⟩ : CountyRecord),
            ⟨"Bibb County, Alabama", 30, 2⟩],
          0 ≤ r.median_income → r.median_income ≤ 20 →
            r ∈ filtered_df [⟨"Autauga County, Alabama", 10, 5⟩,
              ⟨"Bibb County, Alabama", 30, 2⟩] 0 20))
      ∧ filtered_df [⟨"Autauga County, Alabama", 10, 5⟩,
          ⟨"Bibb County, Alabama", 30, 2⟩] 0 20
        = [⟨"Autauga County, Alabama", 10, 5⟩] :=
  ⟨filtered_df_spec _ 0 20, by decide⟩

/-! ### The distress score -/

lemma foldl_max_init_le (l : List ℚ) : ∀ a : ℚ, a ≤ l.foldl max a := by
  induction l with
  | nil => intro a; exact le_refl a
  | cons c t ih =>
    intro a
    exact le_trans (le_max_left a c) (ih (max a c))

lemma mem_le_foldl_max (l : List ℚ) : ∀ a x : ℚ, x ∈ l → x ≤ l.foldl max a := by
  induction l with
  | nil => intro a x hx; cases hx
  | cons c t ih =>
    intro a x hx
    rcases List.mem_cons.mp hx with h | h
    · subst h
      exact le_trans (le_max_right a x) (foldl_max_init_le t (max a x))
    · exact ih (max a c) x h

lemma le_colMax_of_mem {x : ℚ} {l : List ℚ} (h : x ∈ l) : x ≤ colMax l := by
  cases l with
  | nil => cases h
  | cons a t =>
    rcases List.mem_cons.mp h with h0 | h0
    · subst h0
      exact foldl_max_init_le t x
    · exact mem_le_foldl_max t a x h0

/-- C1: for every record of a loaded frame with non-negative incomes and
complaint totals and positive column maxima, the distress score equals
0.5·(total_complaints / max_total_complaints) +
0.5·(1 − median_income / max_median_income), lies in [0,1], and a county
attaining the maximal total_complaints and the minimal median_income over
the full frame attains the maximal score. -/
theorem distress_score_spec (df : List CountyRecord) (r : CountyRecord)
    (hr : r ∈ df)
    (hnn : ∀ x ∈ df, 0 ≤ x.median_income ∧ 0 ≤ x.total_complaints)
    (htc : 0 < colMax (complaintsCol df)) (hmi : 0 < colMax (incomeCol df)) :
    distress_score df r
        = (1 / 2) * (r.total_complaints / colMax (complaintsCol df))
          + (1 / 2) * (1 - r.median_income / colMax (incomeCol df))
      ∧ 0 ≤ distress_score df r ∧ distress_score df r ≤ 1
      ∧ ((r.total_complaints = colMax (complaintsCol df)
            ∧ ∀ x ∈ df, r.median_income ≤ x.median_income) →
          ∀ x ∈ df, distress_score df x ≤ distress_score df r) := by
  have keybounds : ∀ x ∈ df,
      0 ≤ x.total_complaints / colMax (complaintsCol df)
        ∧ x.total_complaints / colMax (complaintsCol df) ≤ 1
        ∧ 0 ≤ x.median_income / colMax (incomeCol df)
        ∧ x.median_income / colMax (incomeCol df) ≤ 1 := by
    intro x hx
    have h1 : x.total_complaints ∈ complaintsCol df :=
      List.mem_map_of_mem (fun r => r.total_complaints) hx
    have h2 : x.median_income ∈ incomeCol df :=
      List.mem_map_of_mem (fun r => r.median_income) hx
    refine ⟨div_nonneg (hnn x hx).2 htc.le, ?_, div_nonneg (hnn x hx).1 hmi.le, ?_⟩
    · rw [div_le_one htc]
      exact le_colMax_of_mem h1
    · rw [div_le_one hmi]
      exact le_colMax_of_mem h2
  obtain ⟨b1, b2, b3, b4⟩ := keybounds r hr
  refine ⟨by unfold distress_score; ring, ?_, ?_, ?_⟩
  · unfold distress_score
    linarith
  · unfold distress_score
    linarith
  · rintro ⟨hmax, hmin⟩ x hx
    obtain ⟨c1, c2, c3, c4⟩ := keybounds x hx
    have hd : r.median_income / colMax (incomeCol df)
        ≤ x.median_income / colMax (incomeCol df) := by
      gcongr
      exact hmin x hx
    have hrM : r.total_complaints / colMax (complaintsCol df) = 1 := by
      rw [hmax]
      exact div_self (ne_of_gt htc)
    unfold distress_score
    linarith

unseal Rat.add Rat.mul Rat.inv Rat.sub in
/-- C1 witness: the distress score on a concrete two-county frame, at the
county with the most complaints and the least income, which scores 7/8. -/
theorem distress_score_spec_witness :
    ((⟨"Autauga County, Alabama", 10, 8⟩ : CountyRecord)
        ∈ [(⟨"Autauga County, Alabama", 10, 8⟩ : CountyRecord),
            ⟨"Bibb County, Alabama", 40, 2⟩]
      ∧ (∀ x ∈ [(⟨"Autauga County, Alabama", 10, 8⟩ : CountyRecord),
            ⟨"Bibb County, Alabama", 40, 2⟩],
          0 ≤ x.median_income ∧ 0 ≤ x.total_complaints)
      ∧ 0 < colMax (complaintsCol
          [⟨"Autauga County, Alabama", 10, 8⟩, ⟨"Bibb County, Alabama", 40, 2⟩])
      ∧ 0 < colMax (incomeCol
          [⟨"Autauga County, Alabama", 10, 8⟩, ⟨"Bibb County, Alabama", 40, 2⟩]))
      ∧ (distress_score
            [⟨"Autauga County, Alabama", 10, 8⟩, ⟨"Bibb County, Alabama", 40, 2⟩]
            ⟨"Autauga County, Alabama", 10, 8⟩
          = (1 / 2) * ((8 : ℚ) / colMax (complaintsCol
              [⟨"Autauga County, Alabama", 10, 8⟩, ⟨"Bibb County, Alabama", 40, 2⟩]))
            + (1 / 2) * (1 - (10 : ℚ) / colMax (incomeCol
              [⟨"Autauga County, Alabama", 10, 8⟩, ⟨"Bibb County, Alabama", 40, 2⟩]))
        ∧ 0 ≤ distress_score
            [⟨"Autauga County, Alabama", 10, 8⟩, ⟨"Bibb County, Alabama", 40, 2⟩]
            ⟨"Autauga County, Alabama", 10, 8⟩
        ∧ distress_score
            [⟨"Autauga County, Alabama", 10, 8⟩, ⟨"Bibb County, Alabama", 40, 2⟩]
            ⟨"Autauga County, Alabama", 10, 8⟩ ≤ 1
        ∧ (((8 : ℚ) = colMax (complaintsCol
              [⟨"Autauga County, Alabama", 10, 8⟩, ⟨"Bibb County, Alabama", 40, 2⟩])
            ∧ ∀ x ∈ [(⟨"Autauga County, Alabama", 10, 8⟩ : CountyRecord),
                ⟨"Bibb County, Alabama", 40, 2⟩],
              (10 : ℚ) ≤ x.median_income) →
            ∀ x ∈ [(⟨"Autauga County, Alabama", 10, 8⟩ : CountyRecord),
                ⟨"Bibb County, Alabama", 40, 2⟩],
              distress_score
                  [⟨"Autauga County, Alabama", 10, 8⟩, ⟨"Bibb County, Alabama", 40, 2⟩] x
                ≤ distress_score
                  [⟨"Autauga County, Alabama", 10, 8⟩, ⟨"Bibb County, Alabama", 40, 2⟩]
                  ⟨"Autauga County, Alabama", 10, 8⟩))
      ∧ distress_score
          [⟨"Autauga County, Alabama", 10, 8⟩, ⟨"Bibb County, Alabama", 40, 2⟩]
          ⟨"Autauga County, Alabama", 10, 8⟩ = 7 / 8 :=
  ⟨⟨by decide, by decide, by decide, by decide⟩,
    distress_score_spec _ _ (by decide) (by decide) (by decide) (by decide),
    by decide⟩

/-! ### Peer finder -/

lemma peers_mem_iff (df : List CountyRecord) (name : String) (sel r : CountyRecord)
    (hsel : findCounty df name = some sel) :
    r ∈ peers_df df name ↔
      r ∈ df ∧ sel.median_income * (95 / 100) ≤ r.median_income
        ∧ r.median_income ≤ sel.median_income * (105 / 100)
        ∧ stateNeB (stateOf r) (stateOf sel) = true := by
  unfold peers_df
  rw [hsel]
  simp [List.mem_mergeSort, List.mem_filter, and_assoc]

lemma pairwise_of_mergeSort_le (l : List CountyRecord) :
    (l.mergeSort fun a b => decide (a.median_income ≤ b.median_income)).Pairwise
      (fun a b => a.median_income ≤ b.median_income) := by
  have htrans : ∀ a b c : CountyRecord,
      decide (a.median_income ≤ b.median_income) = true →
      decide (b.median_income ≤ c.median_income) = true →
      decide (a.median_income ≤ c.median_income) = true := by
    intro a b c h1 h2
    simp only [decide_eq_true_eq] at h1 h2 ⊢
    exact le_trans h1 h2
  have htotal : ∀ a b : CountyRecord,
      (decide (a.median_income ≤ b.median_income)
        || decide (b.median_income ≤ a.median_income)) = true := by
    intro a b
    simp only [Bool.or_eq_true, decide_eq_true_eq]
    exact le_total _ _
  exact (List.sorted_mergeSort htrans htotal l).imp fun hab => by simpa using hab

/-- C3: the peer finder returns exactly the counties of the frame whose
median_income lies in the inclusive band [0.95·I, 1.05·I] around the
selected county's income I and whose state differs (pandas `!=`) from the
selected county's state, sorted ascending by median_income; the displayed
table truncates that list to its first 5 rows, and an empty result is an
ordinary value, not an error. -/
theorem peers_df_spec (df : List CountyRecord) (name : String) (sel : CountyRecord)
    (hsel : findCounty df name = some sel) :
    (∀ r ∈ peers_df df name,
        r ∈ df ∧ sel.median_income * (95 / 100) ≤ r.median_income
          ∧ r.median_income ≤ sel.median_income * (105 / 100)
          ∧ stateNeB (stateOf r) (stateOf sel) = true)
      ∧ (∀ r ∈ df, sel.median_income * (95 / 100) ≤ r.median_income →
          r.median_income ≤ sel.median_income * (105 / 100) →
          stateNeB (stateOf r) (stateOf sel) = true → r ∈ peers_df df name)
      ∧ (peers_df df name).Pairwise (fun a b => a.median_income ≤ b.median_income)
      ∧ peersShown df name = (peers_df df name).take 5
      ∧ (peersShown df name).length ≤ 5
      ∧ ((peers_df df name).length ≤ 5 → peersShown df name = peers_df df name) := by
  refine ⟨?_, ?_, ?_, rfl, ?_, ?_⟩
  · intro r hr
    exact (peers_mem_iff df name sel r hsel).mp hr
  · intro r hr h1 h2 h3
    exact (peers_mem_iff df name sel r hsel).mpr ⟨hr, h1, h2, h3⟩
  · unfold peers_df
    rw [hsel]
    exact pairwise_of_mergeSort_le _
  · unfold peersShown
    rw [List.length_take]
    exact min_le_left _ _
  · intro hlen
    unfold peersShown
    exact List.take_of_length_le hlen

unseal Rat.add Rat.mul Rat.inv Rat.sub List.merge List.mergeSort in
/-- C3 witness: a concrete five-county frame; the peers of the Alabama
county with income 100 are the two Georgia counties with incomes 98 and
100, returned sorted ascending, while the same-state county and the
out-of-band county are excluded. -/
theorem peers_df_spec_witness :
    (findCounty
        [⟨"Autauga County, Alabama", 100, 5⟩, ⟨"Bibb County, Georgia", 100, 2⟩,
          ⟨"Clarke County, Georgia", 98, 4⟩, ⟨"Dale County, Alabama", 100, 3⟩,
          ⟨"Early County, Georgia", 90, 1⟩] "Autauga County, Alabama"
        = some ⟨"Autauga County, Alabama", 100, 5⟩)
      ∧ (∀ r ∈ peers_df
            [⟨"Autauga County, Alabama", 100, 5⟩, ⟨"Bibb County, Georgia", 100, 2⟩,
              ⟨"Clarke County, Georgia", 98, 4⟩, ⟨"Dale County, Alabama", 100, 3⟩,
              ⟨"Early County, Georgia", 90, 1⟩] "Autauga County, Alabama",
          r ∈ [(⟨"Autauga County, Alabama", 100, 5⟩ : CountyRecord),
              ⟨"Bibb County, Georgia", 100, 2⟩, ⟨"Clarke County, Georgia", 98, 4⟩,
              ⟨"Dale County, Alabama", 100, 3⟩, ⟨"Early County, Georgia", 90, 1⟩]
            ∧ (100 : ℚ) * (95 / 100) ≤ r.median_income
            ∧ r.median_income ≤ (100 : ℚ) * (105 / 100)
            ∧ stateNeB (stateOf r)
                (stateOf ⟨"Autauga County, Alabama", 100, 5⟩) = true)
      ∧ peers_df
          [⟨"Autauga County, Alabama", 100, 5⟩, ⟨"Bibb County, Georgia", 100, 2⟩,
            ⟨"Clarke County, Georgia", 98, 4⟩, ⟨"Dale County, Alabama", 100, 3⟩,
            ⟨"Early County, Georgia", 90, 1⟩] "Autauga County, Alabama"
        = [⟨"Clarke County, Georgia", 98, 4⟩, ⟨"Bibb County, Georgia", 100, 2⟩]
      ∧ peersShown
          [⟨"Autauga County, Alabama", 100, 5⟩, ⟨"Bibb County, Georgia", 100, 2⟩,
            ⟨"Clarke County, Georgia", 98, 4⟩, ⟨"Dale County, Alabama", 100, 3⟩,
            ⟨"Early County, Georgia", 90, 1⟩] "Autauga County, Alabama"
        = [⟨"Clarke County, Georgia", 98, 4⟩, ⟨"Bibb County, Georgia", 100, 2⟩] :=
  ⟨by decide,
    fun r hr =>
      (peers_df_spec
        [⟨"Autauga County, Alabama", 100, 5⟩, ⟨"Bibb County, Georgia", 100, 2⟩,
          ⟨"Clarke County, Georgia", 98, 4⟩, ⟨"Dale County, Alabama", 100, 3⟩,
          ⟨"Early County, Georgia", 90, 1⟩] "Autauga County, Alabama"
        ⟨"Autauga County, Alabama", 100, 5⟩ (by decide)).1 r hr,
    by decide, by decide⟩

/-- C10: a record whose state extraction failed (a county string the regex
does not match) satisfies the pandas `!=` state filter against every
selected state, and a selected county with a failed extraction accepts
every record, so malformed counties inside the income band appear in the
peer set regardless of actual state. -/
theorem missing_state_peers (df : List CountyRecord) (name : String)
    (sel r : CountyRecord) (hsel : findCounty df name = some sel) (hr : r ∈ df)
    (hlo : sel.median_income * (95 / 100) ≤ r.median_income)
    (hhi : r.median_income ≤ sel.median_income * (105 / 100)) :
    (∀ st : Option String, stateNeB none st = true)
      ∧ (∀ st : Option String, stateNeB st none = true)
      ∧ (stateOf r = none → r ∈ peers_df df name)
      ∧ (stateOf sel = none → r ∈ peers_df df name) := by
  have hne1 : ∀ st : Option String, stateNeB none st = true := by
    intro st
    cases st <;> rfl
  have hne2 : ∀ st : Option String, stateNeB st none = true := by
    intro st
    cases st <;> rfl
  refine ⟨hne1, hne2, ?_, ?_⟩
  · intro h0
    refine (peers_mem_iff df name sel r hsel).mpr ⟨hr, hlo, hhi, ?_⟩
    rw [h0]
    exact hne1 _
  · intro h0
    refine (peers_mem_iff df name sel r hsel).mpr ⟨hr, hlo, hhi, ?_⟩
    rw [h0]
    exact hne2 _

unseal Rat.add Rat.mul Rat.inv Rat.sub List.merge List.mergeSort in
/-- C10 witness: the malformed county string "Nowhere" (no comma, so no
state) with income inside the band appears among the peers of the Alabama
county. -/
theorem missing_state_peers_witness :
    (findCounty [⟨"Autauga County, Alabama", 100, 5⟩, ⟨"Nowhere", 100, 1⟩]
          "Autauga County, Alabama" = some ⟨"Autauga County, Alabama", 100, 5⟩
        ∧ (⟨"Nowhere", 100, 1⟩ : CountyRecord)
            ∈ [(⟨"Autauga County, Alabama", 100, 5⟩ : CountyRecord), ⟨"Nowhere", 100, 1⟩]
        ∧ (100 : ℚ) * (95 / 100) ≤ 100 ∧ (100 : ℚ) ≤ 100 * (105 / 100)
        ∧ stateOf ⟨"Nowhere", 100, 1⟩ = none)
      ∧ (⟨"Nowhere", 100, 1⟩ : CountyRecord)
          ∈ peers_df [⟨"Autauga County, Alabama", 100, 5⟩, ⟨"Nowhere", 100, 1⟩]
            "Autauga County, Alabama" :=
  ⟨⟨by decide, by decide, by decide, by decide, by decide⟩,
    (missing_state_peers
        [⟨"Autauga County, Alabama", 100, 5⟩, ⟨"Nowhere", 100, 1⟩]
        "Autauga County, Alabama" ⟨"Autauga County, Alabama", 100, 5⟩
        ⟨"Nowhere", 100, 1⟩ (by decide) (by decide) (by decide) (by decide)).2.2.1
      (by decide)⟩

/-! ### Complaint drill-down: top category and advisory tip -/

lemma idxmaxRow_spec : ∀ l : List ComplaintRecord, l ≠ [] →
    ∃ r l1 l2, idxmaxRow l = some r ∧ l = l1 ++ r :: l2
      ∧ (∀ x ∈ l1, x.complaint_count < r.complaint_count)
      ∧ (∀ x ∈ l, x.complaint_count ≤ r.complaint_count) := by
  intro l
  induction l with
  | nil => intro h; exact absurd rfl h
  | cons a t ih =>
    intro _
    by_cases ht : t = []
    · subst ht
      refine ⟨a, [], [], rfl, rfl, by simp, ?_⟩
      intro x hx
      rw [List.mem_singleton] at hx
      subst hx
      exact le_refl _
    · obtain ⟨b, l1, l2, hb, hdec, hstrict, hmax⟩ := ih ht
      by_cases hle : b.complaint_count ≤ a.complaint_count
      · refine ⟨a, [], t, ?_, rfl, by simp, ?_⟩
        · simp [idxmaxRow, hb, hle]
        · intro x hx
          rcases List.mem_cons.mp hx with h | h
          · subst h
            exact le_refl _
          · exact le_trans (hmax x h) hle
      · refine ⟨b, a :: l1, l2, ?_, ?_, ?_, ?_⟩
        · simp [idxmaxRow, hb, hle]
        · rw [hdec]
          rfl
        · intro x hx
          rcases List.mem_cons.mp hx with h | h
          · subst h
            exact not_le.mp hle
          · exact hstrict x h
        · intro x hx
          rcases List.mem_cons.mp hx with h | h
          · subst h
            exact (not_le.mp hle).le
          · exact hmax x h

/-- C4: for a county with complaint rows, the top category is the Product of
the first row attaining the maximal complaint_count (ties broken by first
occurrence in the source table), and the advisory tip follows substring
containment of the 5 keyword keys - "debt collection", "mortgage",
"credit card", "checking", "credit report", in that order, first match wins
- against the lower-cased label, with the generic templated tip naming the
category when no key matches. -/
theorem top_category_tip_spec (cfpb : List ComplaintRecord) (name : String)
    (hne : county_complaints cfpb name ≠ []) :
    (∃ r l1 l2,
        idxmaxRow (county_complaints cfpb name) = some r
          ∧ county_complaints cfpb name = l1 ++ r :: l2
          ∧ (∀ x ∈ l1, x.complaint_count < r.complaint_count)
          ∧ (∀ x ∈ county_complaints cfpb name,
              x.complaint_count ≤ r.complaint_count)
          ∧ top_category cfpb name = some r.product)
      ∧ (∀ s : String,
          (strContains (lowerAscii s) "debt collection" = true →
            advisoryTip s = debtTip)
          ∧ (strContains (lowerAscii s) "debt collection" = false →
              strContains (lowerAscii s) "mortgage" = true →
              advisoryTip s = mortgageTip)
          ∧ (strContains (lowerAscii s) "debt collection" = false →
              strContains (lowerAscii s) "mortgage" = false →
              strContains (lowerAscii s) "credit card" = true →
              advisoryTip s = creditCardTip)
          ∧ (strContains (lowerAscii s) "debt collection" = false →
              strContains (lowerAscii s) "mortgage" = false →
              strContains (lowerAscii s) "credit card" = false →
              strContains (lowerAscii s) "checking" = true →
              advisoryTip s = checkingTip)
          ∧ (strContains (lowerAscii s) "debt collection" = false →
              strContains (lowerAscii s) "mortgage" = false →
              strContains (lowerAscii s) "credit card" = false →
              strContains (lowerAscii s) "checking" = false →
              strContains (lowerAscii s) "credit report" = true →
              advisoryTip s = creditReportTip)
          ∧ (strContains (lowerAscii s) "debt collection" = false →
              strContains (lowerAscii s) "mortgage" = false →
              strContains (lowerAscii s) "credit card" = false →
              strContains (lowerAscii s) "checking" = false →
              strContains (lowerAscii s) "credit report" = false →
              advisoryTip s = genericTip s)) := by
  constructor
  · obtain ⟨r, l1, l2, h1, h2, h3, h4⟩ := idxmaxRow_spec _ hne
    exact ⟨r, l1, l2, h1, h2, h3, h4, by simp [top_category, h1]⟩
  · intro s
    refine ⟨?_, ?_, ?_, ?_, ?_, ?_⟩
    · intro g1
      simp [advisoryTip, g1]
    · intro g1 g2
      simp [advisoryTip, g1, g2]
    · intro g1 g2 g3
      simp [advisoryTip, g1, g2, g3]
    · intro g1 g2 g3 g4
      simp [advisoryTip, g1, g2, g3, g4]
    · intro g1 g2 g3 g4 g5
      simp [advisoryTip, g1, g2, g3, g4, g5]
    · intro g1 g2 g3 g4 g5
      simp [advisoryTip, g1, g2, g3, g4, g5]

/-- C4 witness: the spec's example county with raw categories
Mortgage: 40 and Debt collection: 60 (normalized before the drill-down);
the top category is "Debt Collection" and the tip is the debt-collection
advisory string. -/
theorem top_category_tip_spec_witness :
    (county_complaints
          [⟨"Autauga County, Alabama", shorten_category_name "Mortgage", 40⟩,
            ⟨"Autauga County, Alabama", shorten_category_name "Debt collection", 60⟩]
          "Autauga County, Alabama" ≠ [])
      ∧ top_category
          [⟨"Autauga County, Alabama", shorten_category_name "Mortgage", 40⟩,
            ⟨"Autauga County, Alabama", shorten_category_name "Debt collection", 60⟩]
          "Autauga County, Alabama" = some "Debt Collection"
      ∧ advisoryTip "Debt Collection" = debtTip
      ∧ (∃ r l1 l2,
          idxmaxRow (county_complaints
              [⟨"Autauga County, Alabama", shorten_category_name "Mortgage", 40⟩,
                ⟨"Autauga County, Alabama", shorten_category_name "Debt collection", 60⟩]
              "Autauga County, Alabama") = some r
            ∧ county_complaints
                [⟨"Autauga County, Alabama", shorten_category_name "Mortgage", 40⟩,
                  ⟨"Autauga County, Alabama", shorten_category_name "Debt collection", 60⟩]
                "Autauga County, Alabama" = l1 ++ r :: l2
            ∧ (∀ x ∈ l1, x.complaint_count < r.complaint_count)
            ∧ (∀ x ∈ county_complaints
                [⟨"Autauga County, Alabama", shorten_category_name "Mortgage", 40⟩,
                  ⟨"Autauga County, Alabama", shorten_category_name "Debt collection", 60⟩]
                "Autauga County, Alabama",
                x.complaint_count ≤ r.complaint_count)
            ∧ top_category
                [⟨"Autauga County, Alabama", shorten_category_name "Mortgage", 40⟩,
                  ⟨"Autauga County, Alabama", shorten_category_name "Debt collection", 60⟩]
                "Autauga County, Alabama" = some r.product) :=
  ⟨by decide, by decide, by decide,
    (top_category_tip_spec
      [⟨"Autauga County, Alabama", shorten_category_name "Mortgage", 40⟩,
        ⟨"Autauga County, Alabama", shorten_category_name "Debt collection", 60⟩]
      "Autauga County, Alabama" (by decide)).1⟩

/-! ### Ranking machinery: pandas `rank(ascending=False)`, average method -/

lemma gtCount_succ_le {l : List ℚ} {x y : ℚ} (hy : y ∈ l) (hxy : x < y) :
    l.countP (fun z => decide (y < z)) + 1 ≤ l.countP (fun z => decide (x < z)) := by
  obtain ⟨l1, l2, hdec⟩ := List.append_of_mem hy
  subst hdec
  have m1 : l1.countP (fun z => decide (y < z)) ≤ l1.countP (fun z => decide (x < z)) :=
    List.countP_mono_left fun z _ hz => by
      simp only [decide_eq_true_eq] at hz ⊢
      exact lt_trans hxy hz
  have m2 : l2.countP (fun z => decide (y < z)) ≤ l2.countP (fun z => decide (x < z)) :=
    List.countP_mono_left fun z _ hz => by
      simp only [decide_eq_true_eq] at hz ⊢
      exact lt_trans hxy hz
  simp only [List.countP_append, List.countP_cons, decide_eq_true_eq,
    lt_self_iff_false, if_false, hxy, if_true]
  omega

lemma gtCount_lt_length {l : List ℚ} {x : ℚ} (hx : x ∈ l) :
    l.countP (fun z => decide (x < z)) + 1 ≤ l.length := by
  obtain ⟨l1, l2, hdec⟩ := List.append_of_mem hx
  subst hdec
  have b1 : l1.countP (fun z => decide (x < z)) ≤ l1.length :=
    List.countP_le_length _
  have b2 : l2.countP (fun z => decide (x < z)) ≤ l2.length :=
    List.countP_le_length _
  simp only [List.countP_append, List.countP_cons, decide_eq_true_eq,
    lt_self_iff_false, if_false, List.length_append, List.length_cons]
  omega

lemma eqCount_of_nodup {l : List ℚ} (hnd : l.Nodup) {x : ℚ} (hx : x ∈ l) :
    l.countP (fun z => decide (z = x)) = 1 := by
  obtain ⟨l1, l2, hdec⟩ := List.append_of_mem hx
  subst hdec
  rw [List.nodup_append] at hnd
  have hx1 : x ∉ l1 := fun h => hnd.2.2 h (List.mem_cons_self x l2)
  have hx2 : x ∉ l2 := (List.nodup_cons.mp hnd.2.1).1
  have c1 : l1.countP (fun z => decide (z = x)) = 0 :=
    List.countP_eq_zero.mpr fun a ha => by
      simp only [decide_eq_true_eq]
      exact fun he => hx1 (he ▸ ha)
  have c2 : l2.countP (fun z => decide (z = x)) = 0 :=
    List.countP_eq_zero.mpr fun a ha => by
      simp only [decide_eq_true_eq]
      exact fun he => hx2 (he ▸ ha)
  simp [List.countP_append, List.countP_cons, c1, c2]

lemma count_gt_add_eq_le {l : List ℚ} {a b : ℚ} (hab : b < a) :
    l.countP (fun z => decide (a < z)) + l.countP (fun z => decide (z = a))
      ≤ l.countP (fun z => decide (b < z)) := by
  induction l with
  | nil => simp
  | cons y t ih =>
    simp only [List.countP_cons]
    have hel : ((if decide (a < y) = true then 1 else 0) : ℕ)
        + (if decide (y = a) = true then 1 else 0)
        ≤ (if decide (b < y) = true then 1 else 0) := by
      by_cases h1 : a < y
      · have h2 : ¬(y = a) := fun h => absurd (h ▸ h1) (lt_irrefl a)
        have h3 : b < y := lt_trans hab h1
        simp [h1, h2, h3]
      · by_cases h2 : y = a
        · have h3 : b < y := h2 ▸ hab
          simp [h1, h2, h3, hab]
        · simp [h1, h2]
    omega

lemma eqCount_pos {l : List ℚ} {x : ℚ} (hx : x ∈ l) :
    1 ≤ l.countP (fun z => decide (z = x)) := by
  have : 0 < l.countP (fun z => decide (z = x)) :=
    List.countP_pos_iff.mpr ⟨x, hx, by simp⟩
  omega

/-- The average-method rank is strictly monotone: a strictly larger score
receives a strictly smaller (better) rank. -/
lemma rankOf_lt_of_gt {l : List ℚ} {a b : ℚ} (ha : a ∈ l) (hb : b ∈ l)
    (hab : b < a) : rankOf l a < rankOf l b := by
  have k1 := count_gt_add_eq_le (l := l) hab
  have e1 := eqCount_pos ha
  have e2 := eqCount_pos hb
  have hnat : 2 * l.countP (fun z => decide (a < z))
        + l.countP (fun z => decide (z = a))
      < 2 * l.countP (fun z => decide (b < z))
        + l.countP (fun z => decide (z = b)) := by
    omega
  unfold rankOf
  have hq : (2 * l.countP (fun z => decide (a < z))
        + l.countP (fun z => decide (z = a)) : ℚ)
      < (2 * l.countP (fun z => decide (b < z))
        + l.countP (fun z => decide (z = b)) : ℚ) := by
    exact_mod_cast hnat
  push_cast at hq
  linarith

lemma natRanks_perm (l : List ℚ) (hnd : l.Nodup) :
    (l.map fun x => l.countP (fun z => decide (x < z)) + 1).Perm
      (List.range' 1 l.length) := by
  have hnodupmap : (l.map fun x => l.countP (fun z => decide (x < z)) + 1).Nodup := by
    refine List.Nodup.map_on ?_ hnd
    intro x hx y hy hxy
    by_contra hne
    rcases lt_or_gt_of_ne hne with h | h
    · have := gtCount_succ_le hy h
      omega
    · have := gtCount_succ_le hx h
      omega
  have hnoduprange : (List.range' 1 l.length).Nodup := List.nodup_range' 1 l.length
  have hsub1 : (l.map fun x => l.countP (fun z => decide (x < z)) + 1).toFinset
      ⊆ Finset.Icc 1 l.length := by
    intro k hk
    rw [List.mem_toFinset, List.mem_map] at hk
    obtain ⟨x, hx, hkx⟩ := hk
    rw [Finset.mem_Icc]
    have := gtCount_lt_length hx
    omega
  have hsub2 : (List.range' 1 l.length).toFinset ⊆ Finset.Icc 1 l.length := by
    intro k hk
    rw [List.mem_toFinset, List.mem_range'_1] at hk
    rw [Finset.mem_Icc]
    omega
  have hIcc : (Finset.Icc 1 l.length).card = l.length := by
    rw [Nat.card_Icc]
    omega
  have hcard1 : (l.map fun x => l.countP (fun z => decide (x < z)) + 1).toFinset.card
      = l.length := by
    rw [List.toFinset_card_of_nodup hnodupmap, List.length_map]
  have hcard2 : (List.range' 1 l.length).toFinset.card = l.length := by
    rw [List.toFinset_card_of_nodup hnoduprange, List.length_range']
  have e1 : (l.map fun x => l.countP (fun z => decide (x < z)) + 1).toFinset
      = Finset.Icc 1 l.length :=
    Finset.eq_of_subset_of_card_le hsub1 (by omega)
  have e2 : (List.range' 1 l.length).toFinset = Finset.Icc 1 l.length :=
    Finset.eq_of_subset_of_card_le hsub2 (by omega)
  exact List.perm_of_nodup_nodup_toFinset_eq hnodupmap hnoduprange (e1.trans e2.symm)

lemma ranks_eq_natRanks_of_nodup (l : List ℚ) (hnd : l.Nodup) :
    l.map (rankOf l) = List.map (Nat.cast : ℕ → ℚ)
      (l.map fun x => l.countP (fun z => decide (x < z)) + 1) := by
  rw [List.map_map]
  apply List.map_congr_left
  intro x hx
  unfold rankOf
  rw [eqCount_of_nodup hnd hx]
  simp only [Function.comp_apply]
  push_cast
  ring

lemma sum_range'_one (n : ℕ) : 2 * (List.range' 1 n).sum = n * (n + 1) := by
  induction n with
  | zero => rfl
  | succ k ih =>
    rw [List.range'_1_concat, List.sum_append]
    simp only [List.sum_cons, List.sum_nil, Nat.add_zero]
    have h2 : (k + 1) * (k + 1 + 1) = k * (k + 1) + 2 * (k + 1) := by ring
    rw [h2]
    linarith [ih]

/-- With pairwise-distinct scores, the average-method ranks are a
permutation of 1..N and sum to N·(N+1)/2. -/
lemma ranks_perm_of_nodup (l : List ℚ) (hnd : l.Nodup) :
    (l.map (rankOf l)).Perm (List.map (Nat.cast : ℕ → ℚ) (List.range' 1 l.length))
      ∧ (l.map (rankOf l)).sum = (l.length : ℚ) * ((l.length : ℚ) + 1) / 2 := by
  have hperm := natRanks_perm l hnd
  have hmap := hperm.map (Nat.cast : ℕ → ℚ)
  rw [ranks_eq_natRanks_of_nodup l hnd]
  refine ⟨hmap, ?_⟩
  rw [hmap.sum_eq, ← Nat.cast_list_sum]
  have h2 := sum_range'_one l.length
  have h2q : 2 * (((List.range' 1 l.length).sum : ℕ) : ℚ)
      = (l.length : ℚ) * ((l.length : ℚ) + 1) := by
    exact_mod_cast h2
  linarith

lemma state_df_mem_iff (df : List CountyRecord) (st : Option String)
    (r : CountyRecord) :
    r ∈ state_df df st ↔ r ∈ df ∧ stateEqB (stateOf r) st = true := by
  unfold state_df
  simp [List.mem_mergeSort, List.mem_filter]

lemma state_df_sorted (df : List CountyRecord) (st : Option String) :
    (state_df df st).Pairwise
      (fun a b => distress_score df b ≤ distress_score df a) := by
  have htrans : ∀ a b c : CountyRecord,
      decide (distress_score df b ≤ distress_score df a) = true →
      decide (distress_score df c ≤ distress_score df b) = true →
      decide (distress_score df c ≤ distress_score df a) = true := by
    intro a b c h1 h2
    simp only [decide_eq_true_eq] at h1 h2 ⊢
    exact le_trans h2 h1
  have htotal : ∀ a b : CountyRecord,
      (decide (distress_score df b ≤ distress_score df a)
        || decide (distress_score df a ≤ distress_score df b)) = true := by
    intro a b
    simp only [Bool.or_eq_true, decide_eq_true_eq]
    exact le_total _ _
  exact (List.sorted_mergeSort htrans htotal _).imp fun hab => by simpa using hab

/-- C2: the distress ranker restricts to the rows of the frame whose state
equals (pandas `==`) the selected county's state, orders them descending by
distress_score, assigns pandas average-method ranks - equal scores get equal
ranks, a strictly higher score gets a strictly smaller rank, so rank 1 is
the most distressed - reports the selected county's own score and rank, and
shows the top 10 rows; when no two scores in the state tie, the ranks are
exactly a permutation of 1..N and their sum is N·(N+1)/2. -/
theorem ranking_spec (df : List CountyRecord) (name : String)
    (sel : CountyRecord) (hsel : findCounty df name = some sel)
    (hst : (stateOf sel).isSome = true)
    (huniq : df.Pairwise (fun a b => a.county ≠ b.county)) :
    (∀ r ∈ state_df df (stateOf sel),
        r ∈ df ∧ stateEqB (stateOf r) (stateOf sel) = true)
      ∧ (∀ r ∈ df, stateEqB (stateOf r) (stateOf sel) = true →
          r ∈ state_df df (stateOf sel))
      ∧ (state_df df (stateOf sel)).Pairwise
          (fun a b => distress_score df b ≤ distress_score df a)
      ∧ (∀ a ∈ state_df df (stateOf sel), ∀ b ∈ state_df df (stateOf sel),
          distress_score df a = distress_score df b →
          rankOf (stateScores df (stateOf sel)) (distress_score df a)
            = rankOf (stateScores df (stateOf sel)) (distress_score df b))
      ∧ (∀ a ∈ state_df df (stateOf sel), ∀ b ∈ state_df df (stateOf sel),
          distress_score df b < distress_score df a →
          rankOf (stateScores df (stateOf sel)) (distress_score df a)
            < rankOf (stateScores df (stateOf sel)) (distress_score df b))
      ∧ selectedScoreRank df name
          = some (distress_score df sel,
              rankOf (stateScores df (stateOf sel)) (distress_score df sel))
      ∧ rankingShown df (stateOf sel) = (state_df df (stateOf sel)).take 10
      ∧ ((stateScores df (stateOf sel)).Nodup →
          (stateRanks df (stateOf sel)).Perm
              (List.map (Nat.cast : ℕ → ℚ)
                (List.range' 1 (state_df df (stateOf sel)).length))
            ∧ (stateRanks df (stateOf sel)).sum
              = ((state_df df (stateOf sel)).length : ℚ)
                * (((state_df df (stateOf sel)).length : ℚ) + 1) / 2) := by
  refine ⟨?_, ?_, state_df_sorted df _, ?_, ?_, ?_, rfl, ?_⟩
  · intro r hr
    exact (state_df_mem_iff df _ r).mp hr
  · intro r hr h
    exact (state_df_mem_iff df _ r).mpr ⟨hr, h⟩
  · intro a _ b _ hab
    rw [hab]
  · intro a ha b hb hab
    have ha' : distress_score df a ∈ stateScores df (stateOf sel) :=
      List.mem_map_of_mem (distress_score df) ha
    have hb' : distress_score df b ∈ stateScores df (stateOf sel) :=
      List.mem_map_of_mem (distress_score df) hb
    exact rankOf_lt_of_gt ha' hb' hab
  · have hseldf : sel ∈ df := List.mem_of_find?_eq_some hsel
    have hselname : sel.county = name := by
      have := List.find?_some hsel
      simpa using this
    have hself : sel ∈ state_df df (stateOf sel) := by
      rw [state_df_mem_iff]
      refine ⟨hseldf, ?_⟩
      obtain ⟨st0, hst0⟩ := Option.isSome_iff_exists.mp hst
      rw [hst0]
      simp [stateEqB]
    have hfind : ((state_df df (stateOf sel)).find?
        (fun r => r.county == name)).isSome := by
      rw [List.find?_isSome]
      exact ⟨sel, hself, by simp [hselname]⟩
    obtain ⟨r', hr'⟩ := Option.isSome_iff_exists.mp hfind
    have hr'mem : r' ∈ state_df df (stateOf sel) := List.mem_of_find?_eq_some hr'
    have hr'name : r'.county = name := by
      have := List.find?_some hr'
      simpa using this
    have hr'df : r' ∈ df := ((state_df_mem_iff df _ r').mp hr'mem).1
    have heq : r' = sel := by
      by_contra hne
      have hsymm : Symmetric (fun a b : CountyRecord => a.county ≠ b.county) :=
        fun a b h => fun he => h he.symm
      have := huniq.forall hsymm hr'df hseldf hne
      exact this (hr'name.trans hselname.symm)
    simp only [selectedScoreRank, hsel]
    rw [hr', heq]
    rfl
  · intro hnd
    have hlen : (stateScores df (stateOf sel)).length
        = (state_df df (stateOf sel)).length := by
      unfold stateScores
      rw [List.length_map]
    have h := ranks_perm_of_nodup (stateScores df (stateOf sel)) hnd
    rw [hlen] at h
    exact h

unseal Rat.add Rat.mul Rat.inv Rat.sub List.merge List.mergeSort in
/-- C2 witness: a concrete frame with three Alabama counties (distinct
scores 7/8, 1/2, 1/8) and one Georgia county; the Alabama ranks are exactly
[1, 2, 3] and the selected county reports score 7/8, rank 1. -/
theorem ranking_spec_witness :
    (findCounty ([⟨"Autauga County, Alabama", 10, 8⟩, ⟨"Bibb County, Alabama", 20, 4⟩,
          ⟨"Chilton County, Alabama", 40, 2⟩, ⟨"Clarke County, Georgia", 30, 6⟩]
          : List CountyRecord) "Autauga County, Alabama" = some (⟨"Autauga County, Alabama", 10, 8⟩ : CountyRecord)
      ∧ ((stateOf (⟨"Autauga County, Alabama", 10, 8⟩ : CountyRecord))).isSome = true
      ∧ (([⟨"Autauga County, Alabama", 10, 8⟩, ⟨"Bibb County, Alabama", 20, 4⟩,
          ⟨"Chilton County, Alabama", 40, 2⟩, ⟨"Clarke County, Georgia", 30, 6⟩]
          : List CountyRecord)).Pairwise (fun a b => a.county ≠ b.county))
      ∧ ((∀ r ∈ (state_df ([⟨"Autauga County, Alabama", 10, 8⟩, ⟨"Bibb County, Alabama", 20, 4⟩,
          ⟨"Chilton County, Alabama", 40, 2⟩, ⟨"Clarke County, Georgia", 30, 6⟩]
          : List CountyRecord)
          (stateOf (⟨"Autauga County, Alabama", 10, 8⟩ : CountyRecord))),
            r ∈ ([⟨"Autauga County, Alabama", 10, 8⟩, ⟨"Bibb County, Alabama", 20, 4⟩,
          ⟨"Chilton County, Alabama", 40, 2⟩, ⟨"Clarke County, Georgia", 30, 6⟩]
          : List CountyRecord) ∧ stateEqB (stateOf r) (stateOf (⟨"Autauga County, Alabama", 10, 8⟩ : CountyRecord)) = true)
        ∧ (∀ r ∈ ([⟨"Autauga County, Alabama", 10, 8⟩, ⟨"Bibb County, Alabama", 20, 4⟩,
          ⟨"Chilton County, Alabama", 40, 2⟩, ⟨"Clarke County, Georgia", 30, 6⟩]
          : List CountyRecord), stateEqB (stateOf r) (stateOf (⟨"Autauga County, Alabama", 10, 8⟩ : CountyRecord)) = true →
            r ∈ (state_df ([⟨"Autauga County, Alabama", 10, 8⟩, ⟨"Bibb County, Alabama", 20, 4⟩,
          ⟨"Chilton County, Alabama", 40, 2⟩, ⟨"Clarke County, Georgia", 30, 6⟩]
          : List CountyRecord)
          (stateOf (⟨"Autauga County, Alabama", 10, 8⟩ : CountyRecord))))
        ∧ ((state_df ([⟨"Autauga County, Alabama", 10, 8⟩, ⟨"Bibb County, Alabama", 20, 4⟩,
          ⟨"Chilton County, Alabama", 40, 2⟩, ⟨"Clarke County, Georgia", 30, 6⟩]
          : List CountyRecord)
          (stateOf (⟨"Autauga County, Alabama", 10, 8⟩ : CountyRecord)))).Pairwise
            (fun a b => distress_score ([⟨"Autauga County, Alabama", 10, 8⟩, ⟨"Bibb County, Alabama", 20, 4⟩,
          ⟨"Chilton County, Alabama", 40, 2⟩, ⟨"Clarke County, Georgia", 30, 6⟩]
          : List CountyRecord) b
              ≤ distress_score ([⟨"Autauga County, Alabama", 10, 8⟩, ⟨"Bibb County, Alabama", 20, 4⟩,
          ⟨"Chilton County, Alabama", 40, 2⟩, ⟨"Clarke County, Georgia", 30, 6⟩]
          : List CountyRecord) a)
        ∧ (∀ a ∈ (state_df ([⟨"Autauga County, Alabama", 10, 8⟩, ⟨"Bibb County, Alabama", 20, 4⟩,
          ⟨"Chilton County, Alabama", 40, 2⟩, ⟨"Clarke County, Georgia", 30, 6⟩]
          : List CountyRecord)
          (stateOf (⟨"Autauga County, Alabama", 10, 8⟩ : CountyRecord))), ∀ b ∈ (state_df ([⟨"Autauga County, Alabama", 10, 8⟩, ⟨"Bibb County, Alabama", 20, 4⟩,
          ⟨"Chilton County, Alabama", 40, 2⟩, ⟨"Clarke County, Georgia", 30, 6⟩]
          : List CountyRecord)
          (stateOf (⟨"Autauga County, Alabama", 10, 8⟩ : CountyRecord))),
            distress_score ([⟨"Autauga County, Alabama", 10, 8⟩, ⟨"Bibb County, Alabama", 20, 4⟩,
          ⟨"Chilton County, Alabama", 40, 2⟩, ⟨"Clarke County, Georgia", 30, 6⟩]
          : List CountyRecord) a = distress_score ([⟨"Autauga County, Alabama", 10, 8⟩, ⟨"Bibb County, Alabama", 20, 4⟩,
          ⟨"Chilton County, Alabama", 40, 2⟩, ⟨"Clarke County, Georgia", 30, 6⟩]
          : List CountyRecord) b →
            rankOf (stateScores ([⟨"Autauga County, Alabama", 10, 8⟩, ⟨"Bibb County, Alabama", 20, 4⟩,
          ⟨"Chilton County, Alabama", 40, 2⟩, ⟨"Clarke County, Georgia", 30, 6⟩]
          : List CountyRecord)
          (stateOf (⟨"Autauga County, Alabama", 10, 8⟩ : CountyRecord))) (distress_score ([⟨"Autauga County, Alabama", 10, 8⟩, ⟨"Bibb County, Alabama", 20, 4⟩,
          ⟨"Chilton County, Alabama", 40, 2⟩, ⟨"Clarke County, Georgia", 30, 6⟩]
          : List CountyRecord) a)
              = rankOf (stateScores ([⟨"Autauga County, Alabama", 10, 8⟩, ⟨"Bibb County, Alabama", 20, 4⟩,
          ⟨"Chilton County, Alabama", 40, 2⟩, ⟨"Clarke County, Georgia", 30, 6⟩]
          : List CountyRecord)
          (stateOf (⟨"Autauga County, Alabama", 10, 8⟩ : CountyRecord))) (distress_score ([⟨"Autauga County, Alabama", 10, 8⟩, ⟨"Bibb County, Alabama", 20, 4⟩,
          ⟨"Chilton County, Alabama", 40, 2⟩, ⟨"Clarke County, Georgia", 30, 6⟩]
          : List CountyRecord) b))
        ∧ (∀ a ∈ (state_df ([⟨"Autauga County, Alabama", 10, 8⟩, ⟨"Bibb County, Alabama", 20, 4⟩,
          ⟨"Chilton County, Alabama", 40, 2⟩, ⟨"Clarke County, Georgia", 30, 6⟩]
          : List CountyRecord)
          (stateOf (⟨"Autauga County, Alabama", 10, 8⟩ : CountyRecord))), ∀ b ∈ (state_df ([⟨"Autauga County, Alabama", 10, 8⟩, ⟨"Bibb County, Alabama", 20, 4⟩,
          ⟨"Chilton County, Alabama", 40, 2⟩, ⟨"Clarke County, Georgia", 30, 6⟩]
          : List CountyRecord)
          (stateOf (⟨"Autauga County, Alabama", 10, 8⟩ : CountyRecord))),
            distress_score ([⟨"Autauga County, Alabama", 10, 8⟩, ⟨"Bibb County, Alabama", 20, 4⟩,
          ⟨"Chilton County, Alabama", 40, 2⟩, ⟨"Clarke County, Georgia", 30, 6⟩]
          : List CountyRecord) b < distress_score ([⟨"Autauga County, Alabama", 10, 8⟩, ⟨"Bibb County, Alabama", 20, 4⟩,
          ⟨"Chilton County, Alabama", 40, 2⟩, ⟨"Clarke County, Georgia", 30, 6⟩]
          : List CountyRecord) a →
            rankOf (stateScores ([⟨"Autauga County, Alabama", 10, 8⟩, ⟨"Bibb County, Alabama", 20, 4⟩,
          ⟨"Chilton County, Alabama", 40, 2⟩, ⟨"Clarke County, Georgia", 30, 6⟩]
          : List CountyRecord)
          (stateOf (⟨"Autauga County, Alabama", 10, 8⟩ : CountyRecord))) (distress_score ([⟨"Autauga County, Alabama", 10, 8⟩, ⟨"Bibb County, Alabama", 20, 4⟩,
          ⟨"Chilton County, Alabama", 40, 2⟩, ⟨"Clarke County, Georgia", 30, 6⟩]
          : List CountyRecord) a)
              < rankOf (stateScores ([⟨"Autauga County, Alabama", 10, 8⟩, ⟨"Bibb County, Alabama", 20, 4⟩,
          ⟨"Chilton County, Alabama", 40, 2⟩, ⟨"Clarke County, Georgia", 30, 6⟩]
          : List CountyRecord)
          (stateOf (⟨"Autauga County, Alabama", 10, 8⟩ : CountyRecord))) (distress_score ([⟨"Autauga County, Alabama", 10, 8⟩, ⟨"Bibb County, Alabama", 20, 4⟩,
          ⟨"Chilton County, Alabama", 40, 2⟩, ⟨"Clarke County, Georgia", 30, 6⟩]
          : List CountyRecord) b))
        ∧ selectedScoreRank ([⟨"Autauga County, Alabama", 10, 8⟩, ⟨"Bibb County, Alabama", 20, 4⟩,
          ⟨"Chilton County, Alabama", 40, 2⟩, ⟨"Clarke County, Georgia", 30, 6⟩]
          : List CountyRecord) "Autauga County, Alabama"
            = some (distress_score ([⟨"Autauga County, Alabama", 10, 8⟩, ⟨"Bibb County, Alabama", 20, 4⟩,
          ⟨"Chilton County, Alabama", 40, 2⟩, ⟨"Clarke County, Georgia", 30, 6⟩]
          : List CountyRecord) (⟨"Autauga County, Alabama", 10, 8⟩ : CountyRecord),
                rankOf (stateScores ([⟨"Autauga County, Alabama", 10, 8⟩, ⟨"Bibb County, Alabama", 20, 4⟩,
          ⟨"Chilton County, Alabama", 40, 2⟩, ⟨"Clarke County, Georgia", 30, 6⟩]
          : List CountyRecord)
          (stateOf (⟨"Autauga County, Alabama", 10, 8⟩ : CountyRecord))) (distress_score ([⟨"Autauga County, Alabama", 10, 8⟩, ⟨"Bibb County, Alabama", 20, 4⟩,
          ⟨"Chilton County, Alabama", 40, 2⟩, ⟨"Clarke County, Georgia", 30, 6⟩]
          : List CountyRecord) (⟨"Autauga County, Alabama", 10, 8⟩ : CountyRecord)))
        ∧ rankingShown ([⟨"Autauga County, Alabama", 10, 8⟩, ⟨"Bibb County, Alabama", 20, 4⟩,
          ⟨"Chilton County, Alabama", 40, 2⟩, ⟨"Clarke County, Georgia", 30, 6⟩]
          : List CountyRecord) (stateOf (⟨"Autauga County, Alabama", 10, 8⟩ : CountyRecord)) = ((state_df ([⟨"Autauga County, Alabama", 10, 8⟩, ⟨"Bibb County, Alabama", 20, 4⟩,
          ⟨"Chilton County, Alabama", 40, 2⟩, ⟨"Clarke County, Georgia", 30, 6⟩]
          : List CountyRecord)
          (stateOf (⟨"Autauga County, Alabama", 10, 8⟩ : CountyRecord)))).take 10
        ∧ (((stateScores ([⟨"Autauga County, Alabama", 10, 8⟩, ⟨"Bibb County, Alabama", 20, 4⟩,
          ⟨"Chilton County, Alabama", 40, 2⟩, ⟨"Clarke County, Georgia", 30, 6⟩]
          : List CountyRecord)
          (stateOf (⟨"Autauga County, Alabama", 10, 8⟩ : CountyRecord)))).Nodup →
            ((stateRanks ([⟨"Autauga County, Alabama", 10, 8⟩, ⟨"Bibb County, Alabama", 20, 4⟩,
          ⟨"Chilton County, Alabama", 40, 2⟩, ⟨"Clarke County, Georgia", 30, 6⟩]
          : List CountyRecord)
          (stateOf (⟨"Autauga County, Alabama", 10, 8⟩ : CountyRecord)))).Perm
                (List.map (Nat.cast : ℕ → ℚ)
                  (List.range' 1 ((state_df ([⟨"Autauga County, Alabama", 10, 8⟩, ⟨"Bibb County, Alabama", 20, 4⟩,
          ⟨"Chilton County, Alabama", 40, 2⟩, ⟨"Clarke County, Georgia", 30, 6⟩]
          : List CountyRecord)
          (stateOf (⟨"Autauga County, Alabama", 10, 8⟩ : CountyRecord)))).length))
              ∧ ((stateRanks ([⟨"Autauga County, Alabama", 10, 8⟩, ⟨"Bibb County, Alabama", 20, 4⟩,
          ⟨"Chilton County, Alabama", 40, 2⟩, ⟨"Clarke County, Georgia", 30, 6⟩]
          : List CountyRecord)
          (stateOf (⟨"Autauga County, Alabama", 10, 8⟩ : CountyRecord)))).sum
                = (((state_df ([⟨"Autauga County, Alabama", 10, 8⟩, ⟨"Bibb County, Alabama", 20, 4⟩,
          ⟨"Chilton County, Alabama", 40, 2⟩, ⟨"Clarke County, Georgia", 30, 6⟩]
          : List CountyRecord)
          (stateOf (⟨"Autauga County, Alabama", 10, 8⟩ : CountyRecord)))).length : ℚ)
                  * ((((state_df ([⟨"Autauga County, Alabama", 10, 8⟩, ⟨"Bibb County, Alabama", 20, 4⟩,
          ⟨"Chilton County, Alabama", 40, 2⟩, ⟨"Clarke County, Georgia", 30, 6⟩]
          : List CountyRecord)
          (stateOf (⟨"Autauga County, Alabama", 10, 8⟩ : CountyRecord)))).length : ℚ) + 1) / 2))
      ∧ ((stateScores ([⟨"Autauga County, Alabama", 10, 8⟩, ⟨"Bibb County, Alabama", 20, 4⟩,
          ⟨"Chilton County, Alabama", 40, 2⟩, ⟨"Clarke County, Georgia", 30, 6⟩]
          : List CountyRecord)
          (stateOf (⟨"Autauga County, Alabama", 10, 8⟩ : CountyRecord)))).Nodup
      ∧ (stateRanks ([⟨"Autauga County, Alabama", 10, 8⟩, ⟨"Bibb County, Alabama", 20, 4⟩,
          ⟨"Chilton County, Alabama", 40, 2⟩, ⟨"Clarke County, Georgia", 30, 6⟩]
          : List CountyRecord)
          (stateOf (⟨"Autauga County, Alabama", 10, 8⟩ : CountyRecord))) = [1, 2, 3]
      ∧ selectedScoreRank ([⟨"Autauga County, Alabama", 10, 8⟩, ⟨"Bibb County, Alabama", 20, 4⟩,
          ⟨"Chilton County, Alabama", 40, 2⟩, ⟨"Clarke County, Georgia", 30, 6⟩]
          : List CountyRecord) "Autauga County, Alabama" = some (7 / 8, 1) :=
  ⟨⟨by decide, by decide, by decide⟩,
    ranking_spec ([⟨"Autauga County, Alabama", 10, 8⟩, ⟨"Bibb County, Alabama", 20, 4⟩,
          ⟨"Chilton County, Alabama", 40, 2⟩, ⟨"Clarke County, Georgia", 30, 6⟩]
          : List CountyRecord) "Autauga County, Alabama" (⟨"Autauga County, Alabama", 10, 8⟩ : CountyRecord) (by decide) (by decide) (by decide),
    by decide, by decide, by decide⟩

end MyMoneyMap
